import Mathlib

/-!
Verification of the Supply-Chain-Cost-Analyzer ml-service core.

Shallow embedding of the Python sources:
  * `models/arima_model.py`  — `ArimaModel` (train / forecast / generate_insight)
  * `models/rf_model.py`     — risk narrative and probability handling
  * `data/synthetic.py`      — `SyntheticGenerator.generate_historical_data`
  * `main.py`                — `health_check`, `dashboard_reliability` glue

Numeric values use `ℚ`; calendar dates are day numbers in `Int`.
All randomness (numpy / `random`) is passed in explicitly as an oracle
(`Draws`), so every definition is a pure function of its inputs.
Third-party library behaviour that the repository relies on (statsmodels
forecast indexing, pandas truthiness, sklearn exceptions) is modelled by
small explicit definitions, documented where they occur.
-/

/-- Python exception kinds relevant to the claims.  The source only ever
raises `ValueError` (a generic builtin); `notTrainedError` is modelled from
the spec: the distinct `NotTrainedError` kind §7 demands, which the source
never constructs. -/
inductive PyExc where
  | valueError : String → PyExc
  | notTrainedError : PyExc
deriving DecidableEq, Repr

/-- Models the statsmodels fitted-results object held in
`ArimaModel.model_fit`.  `lastDate` is the last date of the training
series; `pred k` is the (mean, ci_lower, ci_upper) triple the library
computes for step `k`.  Per statsmodels' documented behaviour on a series
with daily frequency (which `train` enforces via `asfreq('D')`),
`get_forecast(steps).summary_frame()` yields `steps` rows indexed by the
consecutive days following `lastDate`. -/
structure FittedModel where
  lastDate : Int
  pred : Nat → ℚ × ℚ × ℚ

/-- `models/arima_model.py` lines 6-10: the wrapper holds the requested
order and the fitted results (`None` until a successful `train`). -/
structure ArimaModel where
  order : Nat × Nat × Nat
  model_fit : Option FittedModel

/-- One row of the DataFrame built in `ArimaModel.forecast`
(`mean`, `lower`, `upper`), together with its date index. -/
structure FRow where
  date : Int
  mean : ℚ
  lower : ℚ
  upper : ℚ
deriving DecidableEq, Repr

/-- The library side of `self.model_fit.get_forecast(steps)` followed by
the column renaming of lines 46-54: `steps` rows dated consecutively from
the day after the training series' last observed date. -/
def get_forecast (f : FittedModel) (steps : Nat) : List FRow :=
  (List.range steps).map (fun k =>
    let p := f.pred k
    ⟨f.lastDate + 1 + (k : Int), p.1, p.2.1, p.2.2⟩)

/-- `models/arima_model.py` lines 38-56.  `if not self.model_fit:` raises
`ValueError("Model not trained yet.")`; otherwise the summary frame is
repackaged.  (`model_fit` is either `None` or a fitted-results object,
which is always truthy in Python.) -/
def ArimaModel.forecast (m : ArimaModel) (steps : Nat) : Except PyExc (List FRow) :=
  match m.model_fit with
  | none => .error (.valueError "Model not trained yet.")
  | some f => .ok (get_forecast f steps)

/-- `models/arima_model.py` lines 12-36.  The two `ARIMA(series, order).fit()`
attempts are abstracted as the oracle `fit` (the training series is folded
into it); `.error` is any exception the library raises.  Inner `try`:
primary order; on failure the fixed fallback `(1,1,0)`; if that also
raises, the outer handler sets `model_fit = None` and returns `False`.
The return type `ArimaModel × Bool` has no error component: no fitting
exception can propagate. -/
def ArimaModel.train (m : ArimaModel)
    (fit : Nat × Nat × Nat → Except String FittedModel) : ArimaModel × Bool :=
  match fit m.order with
  | .ok f => (⟨m.order, some f⟩, true)
  | .error _ =>
    match fit (1, 1, 0) with
    | .ok f => (⟨m.order, some f⟩, true)
    | .error _ => (⟨m.order, none⟩, false)

/-- Arithmetic mean as pandas computes it on a non-empty Series
(`ℚ` division by zero yields 0 for the empty case, which the claims never
exercise). -/
def mean (l : List ℚ) : ℚ := l.sum / (l.length : ℚ)

/-- Python `history[-30:]`. -/
def lastN (n : Nat) (l : List ℚ) : List ℚ := l.drop (l.length - n)

/-- `models/arima_model.py` lines 73-75, branch order exactly as written:
`magnitude = "slightly"`, `if abs > 20: "significantly"`,
`elif abs > 50: "drastically"`. -/
def magnitudeOf (change_pct : ℚ) : String :=
  if 20 < |change_pct| then "significantly"
  else if 50 < |change_pct| then "drastically"
  else "slightly"

/-- `forecast['mean'].idxmax()` paired with the max value: first pair
attaining the maximum (pandas `idxmax` returns the first occurrence). -/
def argmaxPair : List (Int × ℚ) → Option (Int × ℚ)
  | [] => none
  | x :: xs => some (xs.foldl (fun best p => if best.2 < p.2 then p else best) x)

/-- Modelled from the spec: the trough date — the date at which the
forecast mean attains its minimum (first occurrence), used to compare
against what the source actually cites in the `decreasing` branch. -/
def troughDate : List (Int × ℚ) → Option Int
  | [] => none
  | x :: xs => some (xs.foldl (fun best p => if p.2 < best.2 then p else best) x).1

/-- The discrete content of the insight sentence of
`models/arima_model.py` lines 58-94: percentage, trend word, magnitude
word, the date cited in the branch sentence (none for `stable`, which
cites the average value instead), and the recommendation sentence.
Numeric string formatting (`{change_pct:+.1f}` etc.) is abstracted; every
branch decision and cited index is embedded exactly. -/
structure Insight where
  change_pct : ℚ
  trend : String
  magnitude : String
  cited_date : Option Int
  recommendation : String
deriving DecidableEq, Repr

/-- `models/arima_model.py` lines 58-94.  `history` is the series of
observed values; `forecast` the (date, mean) pairs.  Note that the
`decreasing` branch (line 88) reuses `peak_idx` — the `idxmax` date —
in its "bottoming out" sentence. -/
def generate_insight (history : List ℚ) (forecast : List (Int × ℚ)) : Insight :=
  let current_avg0 := if 30 ≤ history.length then mean (lastN 30 history) else mean history
  let future_avg := mean (forecast.map Prod.snd)
  let current_avg := if current_avg0 = 0 then 1 else current_avg0
  let change_pct := (future_avg - current_avg) / current_avg * 100
  let trend := if 5 < change_pct then "increasing"
    else if change_pct < -5 then "decreasing" else "stable"
  let magnitude := magnitudeOf change_pct
  let peak := argmaxPair forecast
  if trend = "increasing" then
    ⟨change_pct, trend, magnitude, peak.map Prod.fst,
      "Consider increasing buffer stock in regional warehouses."⟩
  else if trend = "decreasing" then
    ⟨change_pct, trend, magnitude, peak.map Prod.fst,
      "Opportunity to schedule vehicle maintenance or reduce labor shifts."⟩
  else
    ⟨change_pct, trend, magnitude, none, "Maintain current inventory levels."⟩

/-- Python `int(...)` on a rational: truncation toward zero. -/
def pyInt (q : ℚ) : Int := if 0 ≤ q then ⌊q⌋ else ⌈q⌉

/-- Python `round(x, 1)`.  (Python rounds halves to even; this rounds
halves up — the two differ only at exact odd multiples of 0.05, which no
claim exercises.) -/
def round1 (q : ℚ) : ℚ := ((round (q * 10) : ℤ) : ℚ) / 10

/-- The `row_data` dict consumed by `generate_risk_narrative`. -/
structure RowData where
  is_alpine_int : Int
  distance : ℚ
  month : Nat
  day_of_week : Nat

/-- `models/rf_model.py` lines 43-45: risk banding. -/
def riskLevel (prob_on_time : ℚ) : String :=
  if prob_on_time < 6/10 then "High"
  else if prob_on_time < 8/10 then "Medium"
  else "Low"

/-- `models/rf_model.py` lines 38-68, clause by clause. -/
def generate_risk_narrative (row : RowData) (prob_on_time : ℚ) : String :=
  let risk_level := riskLevel prob_on_time
  let narrative := s!"Reliability Score: {pyInt (prob_on_time * 100)}%. Risk Level: {risk_level}. "
  if risk_level = "High" then
    let n1 := narrative ++ "Major delays likely. "
    let n2 := if row.is_alpine_int = 1 then
      n1 ++ "Alpine route complexity is a primary risk factor. " else n1
    let n3 := if 300 < row.distance then
      n2 ++ "Long-haul distance increases vulnerability to traffic. " else n2
    let n4 := if row.month = 12 ∨ row.month = 1 ∨ row.month = 2 then
      n3 ++ "Winter conditions may exacerbate delays. " else n3
    n4 ++ "Recommendation: buffer lead time by 24h."
  else if risk_level = "Medium" then
    let n1 := narrative ++ "Monitor closely. "
    let n2 := if 4 ≤ row.day_of_week then
      n1 ++ "Weekend traffic patterns may impact arrival. " else n1
    n2 ++ "Ensure vehicle maintenance is up to date."
  else
    narrative ++ "Route is performing optimally. No immediate actions required."

/-- One synthetic test scenario of `main.py` lines 218-224. -/
structure Scenario where
  name : String
  is_alpine_int : Int
  distance : ℚ
  vehicle_encoded : ℚ

/-- One element of the list `dashboard_reliability` returns
(`main.py` lines 252-256): route, score, insight — and nothing else; in
particular no field records whether the probability was a genuine
prediction or the 0.85 fallback. -/
structure DashEntry where
  route : String
  score : ℚ
  insight : String
deriving DecidableEq, Repr

/-- `main.py` lines 231-239: the feature vector built per scenario. -/
def featuresOf (s : Scenario) (day_of_week month : Nat) : List ℚ :=
  [s.vehicle_encoded, 0, s.distance, 150, (s.is_alpine_int : ℚ),
    (day_of_week : ℚ), (month : ℚ)]

/-- `main.py` lines 230-256, one scenario.  `predict` abstracts
`model.model.predict_proba([features])[0][1]`; `.error` is any exception
it raises (e.g. sklearn's shape-mismatch).  The bare `except:` of line
244 substitutes `prob = 0.85` and execution continues identically. -/
def dashEntry (predict : List ℚ → Except String ℚ) (s : Scenario)
    (day_of_week month : Nat) : DashEntry :=
  let prob := match predict (featuresOf s day_of_week month) with
    | .ok p => p
    | .error _ => 85/100
  ⟨s.name, round1 (prob * 100),
    generate_risk_narrative ⟨s.is_alpine_int, s.distance, month, day_of_week⟩ prob⟩

/-- A value stored in the module-level `models` dict of `main.py`:
`None`, a trained `ArimaModel`, the reliability model, or a pandas
Series (the stored history, `main.py` lines 52 and 66). -/
inductive PyVal where
  | pynone : PyVal
  | parima : ArimaModel → PyVal
  | prf : PyVal
  | pseries : List ℚ → PyVal

/-- Python truthiness as `all()` applies it: `bool(None) = False`, model
objects are truthy, and `pandas.Series.__bool__` raises
`ValueError("The truth value of a Series is ambiguous. ...")` unless the
series has exactly one element. -/
def pyBool : PyVal → Except PyExc Bool
  | .pynone => .ok false
  | .parima _ => .ok true
  | .prf => .ok true
  | .pseries [x] => .ok (decide (x ≠ 0))
  | .pseries _ => .error (.valueError
      "The truth value of a Series is ambiguous. Use a.empty, a.bool(), a.item(), a.any() or a.all().")

/-- Python `all(...)` over the dict values, with its short-circuit on the
first falsy element; an exception from `bool(...)` propagates. -/
def pyAll : List PyVal → Except PyExc Bool
  | [] => .ok true
  | v :: vs =>
    match pyBool v with
    | .error e => .error e
    | .ok false => .ok false
    | .ok true => pyAll vs

/-- `v is not None` never raises. -/
def isNotNone : PyVal → Bool
  | .pynone => false
  | _ => true

/-- The JSON body `health_check` builds (`main.py` lines 113-117). -/
structure HealthResp where
  status : String
  models_loaded : Bool
  details : List (String × Bool)
deriving DecidableEq, Repr

/-- `main.py` lines 111-117.  The registry is the `models` dict in
insertion order.  `models_loaded` is `all(models.values())`; `details`
maps each key to `v is not None`. -/
def health_check (models : List (String × PyVal)) : Except PyExc HealthResp :=
  match pyAll (models.map Prod.snd) with
  | .error e => .error e
  | .ok b => .ok ⟨"ok", b, models.map (fun kv => (kv.1, isNotNone kv.2))⟩

/-- `data/synthetic.py`: one delivery record (§3 DeliveryRecord). -/
structure Record where
  id : String
  originId : Nat
  destinationId : Nat
  vehicleId : Nat
  demand : Int
  distance : ℚ
  totalCost : ℚ
  deliveryDate : Int
  isAlpine : Bool
  hasOvertime : Bool
  vehicleType : String
  originCategory : String
  destinationCategory : String
deriving DecidableEq, Repr, Inhabited

/-- The ambient randomness of `generate_historical_data`, made explicit:
per synthetic day `i`, `nDeliveries i` is `int(np.random.normal(vol,
vol*0.2))`; per delivery `(i, j)` the remaining draws select the sampled
ids (as indices into the respective lists of observed ids), the template
row (index into the matching rows), the multiplicative noise, and the
10%-probability overtime flag. -/
structure Draws where
  nDeliveries : Nat → Int
  vehicleChoice : Nat → Nat → Nat
  originChoice : Nat → Nat → Nat
  destChoice : Nat → Nat → Nat
  templateChoice : Nat → Nat → Nat
  noise : Nat → Nat → ℚ
  overtime : Nat → Nat → Bool

/-- `np.random.choice(l)` / `.sample(1)` with the drawn index `k`:
an element of `l` whenever `l` is non-empty. -/
def pyChoice (l : List α) (k : Nat) (dflt : α) : α := l.getD (k % l.length) dflt

/-- `df['deliveryDate'].min()` (0 on the empty list, never used there). -/
def minDate : List Record → Int
  | [] => 0
  | r :: rs => rs.foldl (fun a x => min a x.deliveryDate) r.deliveryDate

/-- `df['deliveryDate'].max()`. -/
def maxDate : List Record → Int
  | [] => 0
  | r :: rs => rs.foldl (fun a x => max a x.deliveryDate) r.deliveryDate

/-- `(latest_date - earliest_date).days` (§4.1 `span`). -/
def span (l : List Record) : Int := maxDate l - minDate l

/-- `data/synthetic.py` lines 52-82: one synthetic row for day `i`,
delivery `j`, dated `date`.  Ids are sampled from the observed id sets,
the template is a real row sharing the sampled vehicle id, cost/demand
are perturbed by the noise draw, distance/isAlpine/categorical fields are
copied from the template, and the id is the distinguishable
`synth_{i}_{j}` string. -/
def mkSynthRow (df : List Record) (d : Draws) (i j : Nat) (date : Int)
    (dflt : Record) : Record :=
  let vehicle_ids := (df.map (fun r => r.vehicleId)).dedup
  let origin_ids := (df.map (fun r => r.originId)).dedup
  let dest_ids := (df.map (fun r => r.destinationId)).dedup
  let vid := pyChoice vehicle_ids (d.vehicleChoice i j) 0
  let oid := pyChoice origin_ids (d.originChoice i j) 0
  let did := pyChoice dest_ids (d.destChoice i j) 0
  let matching := df.filter (fun r => r.vehicleId == vid)
  let template := pyChoice matching (d.templateChoice i j) dflt
  let nz := d.noise i j
  ⟨s!"synth_{i}_{j}", oid, did, vid, pyInt ((template.demand : ℚ) * nz),
    template.distance, template.totalCost * nz, date, template.isAlpine,
    d.overtime i j, template.vehicleType, template.originCategory,
    template.destinationCategory⟩

/-- The `new_rows` loop of `data/synthetic.py` lines 44-82: for each of
`dn` synthetic days, walking backward one day at a time starting the day
before `earliest`, generate `max(1, nDeliveries i)` rows dated
`earliest - (i+1)`. -/
def synthRows (df : List Record) (d : Draws) (earliest : Int) (dn : Nat) :
    List Record :=
  (List.range dn).flatMap (fun i =>
    let date := earliest - ((i : Int) + 1)
    let n := max 1 (d.nDeliveries i)
    (List.range n.toNat).map (fun j => mkSynthRow df d i j date df.headI))

/-- `data/synthetic.py` lines 10-93.  Empty input returns the empty
frame.  If `target_days - span ≤ 0` the (copied) input is returned
unchanged.  Otherwise the `days_needed` synthetic days are generated, the
synthetic rows are concatenated in front of the real ones
(`pd.concat([synthetic_df, df])`) and the result is sorted ascending by
`deliveryDate`. -/
def generate_historical_data (df : List Record) (target_days : Int)
    (d : Draws) : List Record :=
  if df.isEmpty then []
  else
    let earliest := minDate df
    let latest := maxDate df
    let current_span := latest - earliest
    let days_needed := target_days - current_span
    if days_needed ≤ 0 then df
    else
      (synthRows df d earliest days_needed.toNat ++ df).mergeSort
        (fun a b => decide (a.deliveryDate ≤ b.deliveryDate))

/-- Sorted ascending by `deliveryDate`. -/
def sortedByDate (l : List Record) : Prop :=
  l.Pairwise (fun a b => a.deliveryDate ≤ b.deliveryDate)

/-- A concrete delivery record for witnesses. -/
def rec0 : Record :=
  ⟨"r1", 1, 2, 3, 10, 5, 100, 0, false, false, "truck", "hub", "store"⟩

/-- A concrete randomness oracle for witnesses. -/
def draws0 : Draws :=
  ⟨fun _ => 1, fun _ _ => 0, fun _ _ => 0, fun _ _ => 0, fun _ _ => 0,
   fun _ _ => 1, fun _ _ => false⟩

/-- A concrete fitted-results object for witnesses. -/
def fitted0 : FittedModel := ⟨0, fun _ => (1, 0, 2)⟩

/-- A trained model wrapper holding `fitted0`. -/
def trainedModel0 : ArimaModel := ⟨(5, 1, 0), some fitted0⟩

/-- The `models` registry after a fully successful startup
(`main.py` lines 50-80): all three models trained, and the two history
Series stored under the keys added at lines 52 and 66, in dict insertion
order. -/
def startupFullState : List (String × PyVal) :=
  [("demand", .parima trainedModel0), ("spend", .parima trainedModel0),
   ("reliability", .prf), ("demand_history", .pseries [5, 7, 3]),
   ("spend_history", .pseries [120, 90, 80])]

/-- The registry when only the demand forecaster trained. -/
def startupPartialState : List (String × PyVal) :=
  [("demand", .parima trainedModel0), ("spend", .pynone),
   ("reliability", .pynone), ("demand_history", .pseries [5, 7, 3])]

/-- C1.  The claim says `|changePct| > 50` yields `"drastically"`; in the
source (`arima_model.py` lines 73-75) the `elif abs > 50` arm is shadowed
by the preceding `if abs > 20`, so `"drastically"` is unreachable: at
`changePct = 60` (history `[10]`, forecast means `[16, 16]`) the code
produces `"significantly"`.  The exact-boundary sub-claims do hold:
`20` classifies as `"slightly"` and `50` as `"significantly"`. -/
theorem c1_magnitude_dead_branch :
    (generate_insight [10] [(0, 16), (1, 16)]).change_pct = 60 ∧
    (generate_insight [10] [(0, 16), (1, 16)]).magnitude = "significantly" ∧
    (∀ c : ℚ, magnitudeOf c ≠ "drastically") ∧
    (∀ h f, (generate_insight h f).magnitude ≠ "drastically") ∧
    magnitudeOf 20 = "slightly" ∧ magnitudeOf 50 = "significantly" := by
  have hdead : ∀ c : ℚ, magnitudeOf c ≠ "drastically" := by
    intro c
    unfold magnitudeOf
    split_ifs with h1 h2
    · decide
    · exfalso; push_neg at h1; linarith
    · decide
  refine ⟨?_, ?_, hdead, ?_, ?_, ?_⟩
  · norm_num [generate_insight, mean, lastN, magnitudeOf, argmaxPair]
  · norm_num [generate_insight, mean, lastN, magnitudeOf, argmaxPair]
  · intro h f
    simp only [generate_insight]
    split_ifs <;> exact hdead _
  · norm_num [magnitudeOf]
  · norm_num [magnitudeOf]

/-- C2 counterexample.  The claim requires the 0.85 substitution to be
observable via a flag in the result.  At the first dashboard scenario
(June, Monday), the entry produced when the classifier raises is equal to
the entry produced by a genuine 0.85 prediction: `DashEntry` has no flag
field and the substitution is unobservable. -/
theorem c2_fallback_indistinguishable_at_vienna :
    dashEntry (fun _ => .error "shape mismatch")
        ⟨"Vienna Hub -> Salzburg (Mountain)", 1, 320, 0⟩ 0 6
      = dashEntry (fun _ => .ok (85/100))
        ⟨"Vienna Hub -> Salzburg (Mountain)", 1, 320, 0⟩ 0 6 := rfl

/-- C2 amended: whenever `predict_proba` raises, `dashboard_reliability`
silently substitutes probability 0.85; the returned entry (route, score,
insight) carries no substitution flag and is identical to the entry a
genuine 0.85 prediction would produce, for every scenario and date. -/
theorem c2_fallback_is_silent (msg : String) (s : Scenario) (w mo : Nat) :
    dashEntry (fun _ => .error msg) s w mo
      = dashEntry (fun _ => .ok (85/100)) s w mo := rfl

/-- C3.  For a trained model and `steps ≥ 1`, `forecast` succeeds and
returns exactly `steps` rows whose dates are the consecutive days
`lastDate + 1 + i` — gap-free, starting the day after the last observed
date of the training series. -/
theorem c3_forecast_steps_consecutive (m : ArimaModel) (f : FittedModel)
    (steps : Nat) (hm : m.model_fit = some f) (hs : 1 ≤ steps) :
    m.forecast steps = .ok (get_forecast f steps) ∧
    (get_forecast f steps).length = steps ∧
    ((get_forecast f steps).head?.map FRow.date) = some (f.lastDate + 1) ∧
    ∀ i : Nat, ∀ hi : i < (get_forecast f steps).length,
      ((get_forecast f steps).get ⟨i, hi⟩).date = f.lastDate + 1 + (i : Int) := by
  refine ⟨?_, ?_, ?_, ?_⟩
  · simp [ArimaModel.forecast, hm]
  · simp [get_forecast]
  · obtain ⟨k, rfl⟩ : ∃ k, steps = k + 1 := ⟨steps - 1, by omega⟩
    simp [get_forecast, List.range_succ_eq_map]
  · intro i hi
    simp [get_forecast]

/-- C3 witness at a concrete trained model and `steps = 3`. -/
theorem c3_witness :
    trainedModel0.forecast 3 = .ok (get_forecast fitted0 3) ∧
    (get_forecast fitted0 3).length = 3 :=
  ⟨(c3_forecast_steps_consecutive trainedModel0 fitted0 3 rfl (by decide)).1,
   (c3_forecast_steps_consecutive trainedModel0 fitted0 3 rfl (by decide)).2.1⟩

/-- C4.  The claim says the `decreasing` narrative cites the trough date
(argmin of the forecast mean).  With history `[10]` and forecast means
`8` on day 100 and `2` on day 101 the trend is `decreasing`, the trough
is day 101, but line 88 of `arima_model.py` reuses `peak_idx` (the
`idxmax` date) in its "bottoming out" sentence and cites day 100.  The
reduced-labor/maintenance recommendation half of the claim does hold. -/
theorem c4_decreasing_cites_argmax :
    (generate_insight [10] [(100, 8), (101, 2)]).trend = "decreasing" ∧
    (generate_insight [10] [(100, 8), (101, 2)]).cited_date = some 100 ∧
    troughDate [(100, 8), (101, 2)] = some 101 ∧
    (generate_insight [10] [(100, 8), (101, 2)]).cited_date
      ≠ troughDate [(100, 8), (101, 2)] ∧
    (generate_insight [10] [(100, 8), (101, 2)]).recommendation
      = "Opportunity to schedule vehicle maintenance or reduce labor shifts." := by
  have h1 : (generate_insight [10] [(100, 8), (101, 2)]).cited_date = some 100 := by
    norm_num [generate_insight, mean, lastN, magnitudeOf, argmaxPair]
    decide
  have h2 : troughDate [((100 : Int), (8 : ℚ)), (101, 2)] = some 101 := by decide
  refine ⟨?_, h1, h2, ?_, ?_⟩
  · norm_num [generate_insight, mean, lastN, magnitudeOf, argmaxPair]
    decide
  · rw [h1, h2]; decide
  · norm_num [generate_insight, mean, lastN, magnitudeOf, argmaxPair]
    decide

/-- C5.  The claim says the health surface never raises, in particular
not once training succeeded and history Series are in the registry.  In
the fully-trained startup state, `all(models.values())` applies `bool()`
to the stored multi-element pandas Series and raises the ambiguous-truth
`ValueError`, so `/health` fails.  (With only the demand model trained it
still succeeds, because `all` short-circuits on the falsy `None` under
`"spend"` before reaching the Series.) -/
theorem c5_health_check_raises_when_trained :
    health_check startupFullState
      = .error (.valueError
          "The truth value of a Series is ambiguous. Use a.empty, a.bool(), a.item(), a.any() or a.all().") ∧
    health_check startupPartialState
      = .ok ⟨"ok", false,
          [("demand", true), ("spend", false), ("reliability", false),
           ("demand_history", true)]⟩ :=
  ⟨rfl, rfl⟩

/-- C6 counterexample.  An untrained model's `forecast` does fail, but
with the generic builtin `ValueError("Model not trained yet.")`, which is
not the distinct `NotTrainedError` kind the claim requires. -/
theorem c6_untrained_raises_generic_valueerror :
    (ArimaModel.mk (5, 1, 0) none).forecast 30
      = .error (.valueError "Model not trained yet.") ∧
    PyExc.valueError "Model not trained yet." ≠ PyExc.notTrainedError :=
  ⟨rfl, by decide⟩

/-- C6 amended: `forecast(steps)` fails exactly when the model is not
trained (`model_fit` is `None`), and the failure is the generic
`ValueError` with message "Model not trained yet.", not a distinct
`NotTrainedError` exception type. -/
theorem c6_forecast_fails_iff_untrained (m : ArimaModel) (steps : Nat) :
    (m.model_fit = none →
      m.forecast steps = .error (.valueError "Model not trained yet.")) ∧
    (∀ f, m.model_fit = some f →
      m.forecast steps = .ok (get_forecast f steps)) := by
  constructor
  · intro h; simp [ArimaModel.forecast, h]
  · intro f h; simp [ArimaModel.forecast, h]

/-- C6 witness at a concrete untrained model. -/
theorem c6_witness :
    (ArimaModel.mk (1, 1, 0) none).forecast 7
      = .error (.valueError "Model not trained yet.") :=
  (c6_forecast_fails_iff_untrained (ArimaModel.mk (1, 1, 0) none) 7).1 rfl

/-- C7.  `train` tries the primary order; on any fitting failure it
retries exactly once with the fixed fallback `(1,1,0)`; if the fallback
also fails it clears `model_fit` and returns `False`.  The result type
carries no exception: nothing propagates out of `train`. -/
theorem c7_train_retry_policy (m : ArimaModel)
    (fit : Nat × Nat × Nat → Except String FittedModel) :
    (∀ f, fit m.order = .ok f → m.train fit = (⟨m.order, some f⟩, true)) ∧
    (∀ e f, fit m.order = .error e → fit (1, 1, 0) = .ok f →
      m.train fit = (⟨m.order, some f⟩, true)) ∧
    (∀ e e', fit m.order = .error e → fit (1, 1, 0) = .error e' →
      m.train fit = (⟨m.order, none⟩, false)) := by
  refine ⟨?_, ?_, ?_⟩
  · intro f h; unfold ArimaModel.train; rw [h]
  · intro e f h1 h2; unfold ArimaModel.train; rw [h1, h2]
  · intro e e' h1 h2; unfold ArimaModel.train; rw [h1, h2]

/-- C7 witness: both fitting attempts raise; `train` reports `False` and
leaves the model untrained, propagating nothing. -/
theorem c7_witness :
    (ArimaModel.mk (5, 1, 0) none).train (fun _ => .error "LinAlgError")
      = (⟨(5, 1, 0), none⟩, false) :=
  (c7_train_retry_policy (ArimaModel.mk (5, 1, 0) none)
    (fun _ => .error "LinAlgError")).2.2 "LinAlgError" "LinAlgError" rfl rfl

theorem foldl_min_le_init (l : List Record) (a : Int) :
    l.foldl (fun b x => min b x.deliveryDate) a ≤ a := by
  induction l generalizing a with
  | nil => simp
  | cons x xs ih =>
    simp only [List.foldl_cons]
    exact le_trans (ih (min a x.deliveryDate)) (min_le_left _ _)

theorem foldl_min_le_mem : ∀ (l : List Record) (a : Int) (r : Record), r ∈ l →
    l.foldl (fun b x => min b x.deliveryDate) a ≤ r.deliveryDate := by
  intro l
  induction l with
  | nil => intro a r hr; cases hr
  | cons x xs ih =>
    intro a r hr
    simp only [List.foldl_cons]
    rcases List.mem_cons.mp hr with h | h
    · subst h
      exact le_trans (foldl_min_le_init xs _) (min_le_right _ _)
    · exact ih _ _ h

theorem minDate_le_of_mem {l : List Record} {r : Record} (hr : r ∈ l) :
    minDate l ≤ r.deliveryDate := by
  cases l with
  | nil => cases hr
  | cons x xs =>
    rcases List.mem_cons.mp hr with h | h
    · subst h; exact foldl_min_le_init xs _
    · exact foldl_min_le_mem xs _ _ h

theorem foldl_max_init_le (l : List Record) (a : Int) :
    a ≤ l.foldl (fun b x => max b x.deliveryDate) a := by
  induction l generalizing a with
  | nil => simp
  | cons x xs ih =>
    simp only [List.foldl_cons]
    exact le_trans (le_max_left _ _) (ih (max a x.deliveryDate))

theorem foldl_max_mem_le : ∀ (l : List Record) (a : Int) (r : Record), r ∈ l →
    r.deliveryDate ≤ l.foldl (fun b x => max b x.deliveryDate) a := by
  intro l
  induction l with
  | nil => intro a r hr; cases hr
  | cons x xs ih =>
    intro a r hr
    simp only [List.foldl_cons]
    rcases List.mem_cons.mp hr with h | h
    · subst h
      exact le_trans (le_max_right _ _) (foldl_max_init_le xs _)
    · exact ih _ _ h

theorem le_maxDate_of_mem {l : List Record} {r : Record} (hr : r ∈ l) :
    r.deliveryDate ≤ maxDate l := by
  cases l with
  | nil => cases hr
  | cons x xs =>
    rcases List.mem_cons.mp hr with h | h
    · subst h; exact foldl_max_init_le xs _
    · exact foldl_max_mem_le xs _ _ h

theorem foldl_max_eq_init_or_mem : ∀ (l : List Record) (a : Int),
    l.foldl (fun b x => max b x.deliveryDate) a = a ∨
    ∃ r ∈ l, l.foldl (fun b x => max b x.deliveryDate) a = r.deliveryDate := by
  intro l
  induction l with
  | nil => intro a; exact Or.inl rfl
  | cons x xs ih =>
    intro a
    simp only [List.foldl_cons]
    rcases ih (max a x.deliveryDate) with h | ⟨r, hr, h⟩
    · rw [h]
      rcases le_total a x.deliveryDate with hle | hle
      · exact Or.inr ⟨x, List.mem_cons_self _ _, max_eq_right hle⟩
      · exact Or.inl (max_eq_left hle)
    · exact Or.inr ⟨r, List.mem_cons_of_mem _ hr, h⟩

theorem maxDate_attained {l : List Record} (h : l ≠ []) :
    ∃ r ∈ l, maxDate l = r.deliveryDate := by
  cases l with
  | nil => exact absurd rfl h
  | cons x xs =>
    rcases foldl_max_eq_init_or_mem xs x.deliveryDate with he | ⟨r, hr, he⟩
    · exact ⟨x, List.mem_cons_self _ _, he⟩
    · exact ⟨r, List.mem_cons_of_mem _ hr, he⟩

theorem mkSynthRow_date (df : List Record) (d : Draws) (i j : Nat)
    (date : Int) (dflt : Record) :
    (mkSynthRow df d i j date dflt).deliveryDate = date := rfl

/-- Every synthetic day contributes at least one row; in particular the
earliest synthetic day `earliest - dn` is populated. -/
theorem synthRows_earliest_mem (df : List Record) (d : Draws)
    (earliest : Int) {dn : Nat} (h : 0 < dn) :
    ∃ r ∈ synthRows df d earliest dn, r.deliveryDate = earliest - (dn : Int) := by
  refine ⟨mkSynthRow df d (dn - 1) 0 (earliest - (((dn - 1 : Nat) : Int) + 1)) df.headI, ?_, ?_⟩
  · unfold synthRows
    refine List.mem_flatMap.mpr ⟨dn - 1, List.mem_range.mpr (by omega), ?_⟩
    have hn : 0 < (max 1 (d.nDeliveries (dn - 1))).toNat := by
      have := le_max_left (1 : Int) (d.nDeliveries (dn - 1))
      omega
    exact List.mem_map.mpr ⟨0, List.mem_range.mpr hn, rfl⟩
  · rw [mkSynthRow_date]
    omega

/-- C8.  When the input already spans at least `target` days,
`generate_historical_data` is a no-op (it returns the input record set
unchanged: same records, same length, same date range), and hence a
second application, with any further randomness, is a no-op as well. -/
theorem c8_augment_noop_when_span_sufficient (df : List Record)
    (target : Int) (d d2 : Draws) (h1 : df ≠ []) (h2 : target ≤ span df) :
    generate_historical_data df target d = df ∧
    generate_historical_data (generate_historical_data df target d) target d2 = df := by
  have hne : df.isEmpty = false := by
    simpa [List.isEmpty_iff] using h1
  have hcond : target - (maxDate df - minDate df) ≤ 0 := by
    unfold span at h2; omega
  have e1 : ∀ dr : Draws, generate_historical_data df target dr = df := by
    intro dr
    unfold generate_historical_data
    simp [hne, hcond]
  refine ⟨e1 d, ?_⟩
  rw [e1 d]
  exact e1 d2

/-- C8 witness: a one-record history, `target = 0`. -/
theorem c8_witness :
    generate_historical_data [rec0] 0 draws0 = [rec0] ∧
    generate_historical_data (generate_historical_data [rec0] 0 draws0) 0 draws0 = [rec0] :=
  c8_augment_noop_when_span_sufficient [rec0] 0 draws0 draws0 (by simp)
    (by simp [span, minDate, maxDate])

/-- C9.  For every non-empty input and every `target`, the augmented
output spans at least `target` days: the no-op branch already satisfies
it, and the generation branch populates every synthetic day back to
`earliest - days_needed` (each day gets `max(1, ...) ≥ 1` rows) while
keeping the latest real date, so the new span reaches exactly `target`. -/
theorem c9_coverage (df : List Record) (target : Int) (d : Draws)
    (hne : df ≠ []) :
    target ≤ span (generate_historical_data df target d) := by
  have hne' : df.isEmpty = false := by simpa [List.isEmpty_iff] using hne
  by_cases hd : target - (maxDate df - minDate df) ≤ 0
  · have e : generate_historical_data df target d = df := by
      unfold generate_historical_data
      simp [hne', hd]
    rw [e]
    unfold span
    omega
  · have hgen : generate_historical_data df target d =
        (synthRows df d (minDate df) (target - (maxDate df - minDate df)).toNat
            ++ df).mergeSort
          (fun a b => decide (a.deliveryDate ≤ b.deliveryDate)) := by
      unfold generate_historical_data
      simp [hne', hd]
    rw [hgen]
    set dn := (target - (maxDate df - minDate df)).toNat with hdn
    have hdnpos : 0 < dn := by omega
    obtain ⟨rmin, hrminm, hrmind⟩ := synthRows_earliest_mem df d (minDate df) hdnpos
    obtain ⟨rmax, hrmaxm, hrmaxd⟩ := maxDate_attained hne
    have hminmem : rmin ∈ (synthRows df d (minDate df) dn ++ df).mergeSort
        (fun a b => decide (a.deliveryDate ≤ b.deliveryDate)) :=
      List.mem_mergeSort.mpr (List.mem_append_left _ hrminm)
    have hmaxmem : rmax ∈ (synthRows df d (minDate df) dn ++ df).mergeSort
        (fun a b => decide (a.deliveryDate ≤ b.deliveryDate)) :=
      List.mem_mergeSort.mpr (List.mem_append_right _ hrmaxm)
    have h1 := minDate_le_of_mem hminmem
    have h2 := le_maxDate_of_mem hmaxmem
    rw [hrmind] at h1
    unfold span
    omega

/-- C9 witness: a one-record history and `target = 1` forces one
synthetic day. -/
theorem c9_witness : (1 : Int) ≤ span (generate_historical_data [rec0] 1 draws0) :=
  c9_coverage [rec0] 1 draws0 (by simp)

/-- C10.  Every original record appears, with all fields unmodified, in
the augmented output; and the output is sorted ascending by date — in
the generation branch unconditionally (the merge is followed by
`sort_values('deliveryDate')`), and in the no-op branch because the
input, which the branch returns unchanged, is itself sorted (as the
RecordStore contract of §6 supplies it). -/
theorem c10_preservation_and_sorted (df : List Record) (target : Int)
    (d : Draws) :
    (∀ r ∈ df, r ∈ generate_historical_data df target d) ∧
    ((sortedByDate df ∨ span df < target) →
      sortedByDate (generate_historical_data df target d)) := by
  rcases eq_or_ne df [] with rfl | hne
  · refine ⟨fun r hr => absurd hr (List.not_mem_nil r), fun _ => ?_⟩
    simp [generate_historical_data, sortedByDate]
  · have hne' : df.isEmpty = false := by simpa [List.isEmpty_iff] using hne
    by_cases hd : target - (maxDate df - minDate df) ≤ 0
    · have e : generate_historical_data df target d = df := by
        unfold generate_historical_data
        simp [hne', hd]
      rw [e]
      refine ⟨fun r hr => hr, ?_⟩
      rintro (hs | hlt)
      · exact hs
      · exfalso
        unfold span at hlt
        omega
    · have hgen : generate_historical_data df target d =
          (synthRows df d (minDate df) (target - (maxDate df - minDate df)).toNat
              ++ df).mergeSort
            (fun a b => decide (a.deliveryDate ≤ b.deliveryDate)) := by
        unfold generate_historical_data
        simp [hne', hd]
      rw [hgen]
      constructor
      · intro r hr
        exact List.mem_mergeSort.mpr (List.mem_append_right _ hr)
      · intro _
        unfold sortedByDate
        refine List.Pairwise.imp (fun hab => ?_) (List.sorted_mergeSort ?_ ?_ _)
        · simpa using hab
        · intro a b c hab hbc
          simp only [decide_eq_true_eq] at hab hbc ⊢
          omega
        · intro a b
          simp only [Bool.or_eq_true, decide_eq_true_eq]
          omega

/-- C10 witness at a concrete sorted one-record input. -/
theorem c10_witness :
    rec0 ∈ generate_historical_data [rec0] 0 draws0 ∧
    sortedByDate (generate_historical_data [rec0] 0 draws0) :=
  ⟨(c10_preservation_and_sorted [rec0] 0 draws0).1 rec0 (by simp),
   (c10_preservation_and_sorted [rec0] 0 draws0).2 (Or.inl (by simp [sortedByDate]))⟩
